import Mathlib

/-!
Shallow embedding of `src/textarena/basic_agents.py` (repository
jmilldotdev/TextArena): an abstract `Agent` base class with three concrete
variants (`HumanAgent`, `GPTAgent`, `HFLocalAgent`).

Modelling conventions:
* A Python exception is modelled by its message string; a computation that
  may raise is a value of `Except String α`.
* External effects are oracles passed as parameters: the OpenAI client is a
  function `ChatRequest → Except String ChatCompletion`, the Hugging Face
  text-generation pipeline a function
  `PipelineRequest → Except String (List GenRecord)`, stdin supplies one
  line per `input()` (the interactive, blocking semantics).
* The module-level global `openai.api_key` (written and read by
  `GPTAgent.__init__`) is modelled by explicit state `OpenAIGlobals`
  threaded through the constructor; functions that do not touch module
  state are also given `...G` wrappers that thread the state through, so
  that frame properties about module state can be stated.
* Methods keep their shape: `xCallBody` is the code inside the `try:`
  block, `xCall` is the whole `__call__` including the `except` clause,
  and it returns the (unchanged) instance together with the result, so
  that attribute-frame properties can be stated.
-/

namespace BasicAgents

/-- One entry of the `messages` list of a chat-completion request:
a Python dict `{"role": ..., "content": ...}`. -/
structure ChatMessageIn where
  role : String
  content : String
deriving DecidableEq, Repr

/-- The chat-completion request assembled by `GPTAgent.__call__`. -/
structure ChatRequest where
  model : String
  messages : List ChatMessageIn
  n : Nat
  stop : Option (List String)
  temperature : Float
deriving Repr

/-- The message of one returned choice; `content` is `Optional[str]` in the
OpenAI API, `none` modelling Python `None`. -/
structure ChatMessageOut where
  content : Option String
deriving DecidableEq, Repr

/-- One candidate of a chat completion. -/
structure Choice where
  message : ChatMessageOut
deriving DecidableEq, Repr

/-- A chat-completion response: the list of candidates. -/
structure ChatCompletion where
  choices : List Choice
deriving DecidableEq, Repr

/-- The OpenAI client held in `self.client`: a request either yields a
completion or raises (error = exception message). -/
def GPTClient : Type := ChatRequest → Except String ChatCompletion

/-- The keyword arguments of the `self.pipeline(...)` invocation in
`HFLocalAgent.__call__`, together with the positional input text. -/
structure PipelineRequest where
  inputs : String
  num_return_sequences : Nat
  temperature : Float
  return_full_text : Bool
deriving Repr

/-- One element of a text-generation pipeline response: a dict that may or
may not carry the key `'generated_text'` (`none` = key absent, so that
the `KeyError` of `response[0]['generated_text']` is representable). -/
structure GenRecord where
  generated_text : Option String
deriving DecidableEq, Repr

/-- The Hugging Face text-generation pipeline held in `self.pipeline`. -/
def HFPipeline : Type := PipelineRequest → Except String (List GenRecord)

/-- An opaque loaded tokenizer object (`AutoTokenizer.from_pretrained`). -/
structure HFTokenizer where
  handle : Nat
deriving DecidableEq, Repr

/-- An opaque loaded causal-LM object (`AutoModelForCausalLM.from_pretrained`). -/
structure HFModel where
  handle : Nat
deriving DecidableEq, Repr

/-- Python `xs[i]` on a list: raises `IndexError` when out of range. -/
def listIndex {α : Type} (xs : List α) (i : Nat) : Except String α :=
  match xs.get? i with
  | some x => Except.ok x
  | none => Except.error "list index out of range"

/-- Python attribute/method access `content.strip()` where `content` is
`Optional[str]`: raises `AttributeError` on `None`, otherwise strips
leading and trailing whitespace. -/
def optStrip (content : Option String) : Except String String :=
  match content with
  | some s => Except.ok s.trim
  | none => Except.error "'NoneType' object has no attribute 'strip'"

/-- Python dict access `r['generated_text']`: raises `KeyError` when the
key is absent. -/
def dictGetGeneratedText (r : GenRecord) : Except String String :=
  match r.generated_text with
  | some s => Except.ok s
  | none => Except.error "'generated_text'"

/-- A Python `try: body except Exception as e: handler(e)` block. -/
def pyTry {α : Type} (body : Except String α) (handler : String → Except String α) :
    Except String α :=
  match body with
  | Except.ok v => Except.ok v
  | Except.error e => handler e

/-- Python truthiness test `not openai.api_key` on an `Optional[str]`:
true exactly for `None` and the empty string. -/
def pyFalsyKey : Option String → Bool
  | none => true
  | some s => s == ""

/-- The mutable module-level state of the `openai` package that
`GPTAgent.__init__` writes to and reads from (`openai.api_key`). -/
structure OpenAIGlobals where
  api_key : Option String
deriving DecidableEq, Repr

/-- The error message of the `ValueError` raised by `GPTAgent.__init__`. -/
def apiKeyErrorMsg : String :=
  "OpenAI API key not found. Please set the OPENAI_API_KEY environment variable."

/-- `HumanAgent`: attributes set by `Agent.__init__` only. -/
structure HumanAgent where
  model_name : String
  agent_identifier : String
deriving DecidableEq, Repr

/-- `HumanAgent.__init__`: delegates to `Agent.__init__`, which stores the
model name in both `model_name` and `agent_identifier`. -/
def HumanAgent.init (model_name : String) : HumanAgent :=
  { model_name := model_name, agent_identifier := model_name }

/-- The prompt string passed to `input(...)` in `HumanAgent.__call__`. -/
def humanPrompt : String := "Please enter the action: "

/-- `HumanAgent.__call__`: `print(observation)` writes the observation plus
a newline to stdout, `input("Please enter the action: ")` writes the prompt
to stdout and reads one line from stdin, which is returned verbatim.
Result: (instance after the call, stdout writes, returned action). -/
def humanCall (self : HumanAgent) (observation : String) (stdinLine : String) :
    HumanAgent × List String × String :=
  (self, [observation ++ "\n", humanPrompt], stdinLine)

/-- `HumanAgent.__call__` viewed as a possibly-raising computation: its body
contains no raising operation (stdin supplies a line), so it is the plain
result. -/
def humanCallMethod (self : HumanAgent) (observation : String) (stdinLine : String) :
    Except String (HumanAgent × List String × String) :=
  Except.ok (humanCall self observation stdinLine)

/-- `GPTAgent`: base attributes plus the per-instance OpenAI client
(`self.client = openai.OpenAI(base_url="https://openrouter.ai/api/v1")`). -/
structure GPTAgent where
  model_name : String
  agent_identifier : String
  client : GPTClient

/-- `GPTAgent.__init__`: after `Agent.__init__`, executes
`openai.api_key = os.getenv("OPENAI_API_KEY")` (a write to shared module
state), raises `ValueError` when the stored key is falsy (`None` or empty),
otherwise constructs the per-instance client. `env` is the value of
`os.getenv("OPENAI_API_KEY")`; `mkClient` stands for the external client
constructor, invoked only when the key check passes. Returns the
construction outcome together with the module state after construction. -/
def GPTAgent.init (env : Option String) (mkClient : GPTClient)
    (g : OpenAIGlobals) (model_name : String) :
    Except String GPTAgent × OpenAIGlobals :=
  let g1 : OpenAIGlobals := { api_key := env }
  if pyFalsyKey g1.api_key then
    (Except.error apiKeyErrorMsg, g1)
  else
    (Except.ok { model_name := model_name, agent_identifier := model_name,
                 client := mkClient }, g1)

/-- The request assembled inside the `try:` block of `GPTAgent.__call__`. -/
def mkChatRequest (model : String) (observation : String) : ChatRequest :=
  { model := model,
    messages := [ { role := "system", content := "You are a helpful assistant." },
                  { role := "user", content := observation } ],
    n := 1,
    stop := none,
    temperature := 0.7 }

/-- The body of the `try:` block of `GPTAgent.__call__`: issue the request
via the client, then `response.choices[0].message.content.strip()`. -/
def gptCallBody (self : GPTAgent) (observation : String) : Except String String := do
  let response ← self.client (mkChatRequest self.model_name observation)
  let choice ← listIndex response.choices 0
  let action ← optStrip choice.message.content
  pure action

/-- `GPTAgent.__call__` including the `except Exception as e:` clause, which
returns `f"An error occurred: {e}"`. Result: (instance after the call,
returned action). -/
def gptCall (self : GPTAgent) (observation : String) : GPTAgent × String :=
  (self,
    match gptCallBody self observation with
    | Except.ok action => action
    | Except.error e => "An error occurred: " ++ e)

/-- `GPTAgent.__call__` viewed as a possibly-raising computation: the
`try/except` turns every raise of the body into a normal string return. -/
def gptCallMethod (self : GPTAgent) (observation : String) : Except String String :=
  pyTry (gptCallBody self observation)
    (fun e => Except.ok ("An error occurred: " ++ e))

/-- `HFLocalAgent`: base attributes plus `quantize`, the loaded tokenizer
and model, and the pipeline built over them. -/
structure HFLocalAgent where
  model_name : String
  agent_identifier : String
  quantize : Bool
  tokenizer : HFTokenizer
  model : HFModel
  pipeline : HFPipeline

/-- `HFLocalAgent.__init__`: after `Agent.__init__`, loads the tokenizer,
loads the model (with `load_in_8bit=True` when `quantize` is set), and
builds the text-generation pipeline over them. The external loaders
(`AutoTokenizer.from_pretrained`, `AutoModelForCausalLM.from_pretrained`,
`pipeline('text-generation', ...)`) are oracle parameters; loading may
raise (e.g. unresolvable identifier), which propagates. -/
def HFLocalAgent.init (loadTokenizer : String → Except String HFTokenizer)
    (loadModel : String → Bool → Except String HFModel)
    (mkPipeline : HFModel → HFTokenizer → HFPipeline)
    (model_name : String) (quantize : Bool) : Except String HFLocalAgent := do
  let tokenizer ← loadTokenizer model_name
  let model ←
    if quantize then
      loadModel model_name true
    else
      loadModel model_name false
  pure { model_name := model_name, agent_identifier := model_name,
         quantize := quantize, tokenizer := tokenizer, model := model,
         pipeline := mkPipeline model tokenizer }

/-- The keyword arguments of the pipeline invocation in
`HFLocalAgent.__call__`. -/
def mkPipelineRequest (observation : String) : PipelineRequest :=
  { inputs := observation,
    num_return_sequences := 1,
    temperature := 0.7,
    return_full_text := false }

/-- The body of the `try:` block of `HFLocalAgent.__call__`: run the
pipeline, then `response[0]['generated_text'].strip()`. -/
def hfCallBody (self : HFLocalAgent) (observation : String) : Except String String := do
  let response ← self.pipeline (mkPipelineRequest observation)
  let r0 ← listIndex response 0
  let text ← dictGetGeneratedText r0
  pure text.trim

/-- `HFLocalAgent.__call__` including the `except Exception as e:` clause.
Result: (instance after the call, returned action). -/
def hfCall (self : HFLocalAgent) (observation : String) : HFLocalAgent × String :=
  (self,
    match hfCallBody self observation with
    | Except.ok action => action
    | Except.error e => "An error occurred: " ++ e)

/-- `HFLocalAgent.__call__` viewed as a possibly-raising computation. -/
def hfCallMethod (self : HFLocalAgent) (observation : String) : Except String String :=
  pyTry (hfCallBody self observation)
    (fun e => Except.ok ("An error occurred: " ++ e))

/-- `HumanAgent.__init__` threading the `openai` module state: the
constructor mentions no module-level state, so it passes through. -/
def humanInitG (g : OpenAIGlobals) (model_name : String) :
    OpenAIGlobals × HumanAgent :=
  (g, HumanAgent.init model_name)

/-- `HFLocalAgent.__init__` threading the `openai` module state: the
constructor mentions no `openai` module state, so it passes through. -/
def hfInitG (g : OpenAIGlobals) (loadTokenizer : String → Except String HFTokenizer)
    (loadModel : String → Bool → Except String HFModel)
    (mkPipeline : HFModel → HFTokenizer → HFPipeline)
    (model_name : String) (quantize : Bool) :
    OpenAIGlobals × Except String HFLocalAgent :=
  (g, HFLocalAgent.init loadTokenizer loadModel mkPipeline model_name quantize)

/-- `HumanAgent.__call__` threading the `openai` module state: the call
body mentions no module-level state, so it passes through. -/
def humanCallG (g : OpenAIGlobals) (self : HumanAgent) (observation : String)
    (stdinLine : String) : OpenAIGlobals × HumanAgent × List String × String :=
  (g, humanCall self observation stdinLine)

/-- `GPTAgent.__call__` threading the `openai` module state: the call body
uses only `self.client` and `self.model_name`, no module-level state. -/
def gptCallG (g : OpenAIGlobals) (self : GPTAgent) (observation : String) :
    OpenAIGlobals × GPTAgent × String :=
  (g, gptCall self observation)

/-- `HFLocalAgent.__call__` threading the `openai` module state: the call
body uses only `self.pipeline`, no module-level state. -/
def hfCallG (g : OpenAIGlobals) (self : HFLocalAgent) (observation : String) :
    OpenAIGlobals × HFLocalAgent × String :=
  (g, hfCall self observation)

/-- A concrete client that always raises, for concrete evaluations. -/
def raisingClient (msg : String) : GPTClient := fun _ => Except.error msg

/-- A concrete client that returns one candidate with fixed text. -/
def constClient (text : String) : GPTClient :=
  fun _ => Except.ok { choices := [ { message := { content := some text } } ] }

/-- A concrete pipeline that always raises, for concrete evaluations. -/
def raisingPipeline (msg : String) : HFPipeline := fun _ => Except.error msg

/-- A concrete pipeline that returns one sequence with fixed text. -/
def constPipeline (text : String) : HFPipeline :=
  fun _ => Except.ok [ { generated_text := some text } ]

/-- A concrete tokenizer loader that always succeeds. -/
def okLoadTokenizer : String → Except String HFTokenizer :=
  fun _ => Except.ok { handle := 0 }

/-- A concrete model loader that always succeeds. -/
def okLoadModel : String → Bool → Except String HFModel :=
  fun _ _ => Except.ok { handle := 0 }

/-- A concrete pipeline builder returning a fixed-output pipeline. -/
def okMkPipeline (text : String) : HFModel → HFTokenizer → HFPipeline :=
  fun _ _ => constPipeline text

end BasicAgents

namespace BasicAgents

/-- C1: if the underlying client (remote variant) or pipeline (local
variant) raises an exception with message `e` during a call, the call does
not propagate it but returns the string `"An error occurred: " ++ e`. -/
theorem claim1_exception_to_error_string
    (a : GPTAgent) (b : HFLocalAgent) (observation e : String) :
    (a.client (mkChatRequest a.model_name observation) = Except.error e →
      (gptCall a observation).2 = "An error occurred: " ++ e) ∧
    (b.pipeline (mkPipelineRequest observation) = Except.error e →
      (hfCall b observation).2 = "An error occurred: " ++ e) := by
  constructor
  · intro h
    unfold gptCall gptCallBody
    rw [h]
    rfl
  · intro h
    unfold hfCall hfCallBody
    rw [h]
    rfl

/-- Witness for C1 at a concrete raising client and pipeline. -/
theorem claim1_exception_to_error_string_witness :
    (gptCall { model_name := "m", agent_identifier := "m",
               client := raisingClient "boom" } "obs").2
        = "An error occurred: boom" ∧
    (hfCall { model_name := "m", agent_identifier := "m", quantize := false,
              tokenizer := { handle := 0 }, model := { handle := 0 },
              pipeline := raisingPipeline "boom" } "obs").2
        = "An error occurred: boom" :=
  ⟨(claim1_exception_to_error_string
      { model_name := "m", agent_identifier := "m",
        client := raisingClient "boom" }
      { model_name := "m", agent_identifier := "m", quantize := false,
        tokenizer := { handle := 0 }, model := { handle := 0 },
        pipeline := raisingPipeline "boom" } "obs" "boom").1 rfl,
   (claim1_exception_to_error_string
      { model_name := "m", agent_identifier := "m",
        client := raisingClient "boom" }
      { model_name := "m", agent_identifier := "m", quantize := false,
        tokenizer := { handle := 0 }, model := { handle := 0 },
        pipeline := raisingPipeline "boom" } "obs" "boom").2 rfl⟩

/-- C2: for every variant and observation, `__call__` always returns a
string and never raises: viewed as possibly-raising computations, all three
call methods yield `Except.ok` of the returned action, for every behavior
of the external client/pipeline (including raising ones). -/
theorem claim2_call_never_raises
    (h : HumanAgent) (a : GPTAgent) (b : HFLocalAgent)
    (observation stdinLine : String) :
    humanCallMethod h observation stdinLine
        = Except.ok (humanCall h observation stdinLine) ∧
    gptCallMethod a observation = Except.ok ((gptCall a observation).2) ∧
    hfCallMethod b observation = Except.ok ((hfCall b observation).2) := by
  refine ⟨rfl, ?_, ?_⟩
  · unfold gptCallMethod gptCall pyTry
    cases gptCallBody a observation <;> rfl
  · unfold hfCallMethod hfCall pyTry
    cases hfCallBody b observation <;> rfl

/-- C3: constructing the remote variant with the credential environment
variable unset raises the configuration `ValueError` and the error
propagates out of the constructor. The result is the same for every client
constructor and prior module state, so no network call can have influenced
it: the check happens before the client is ever built or used. -/
theorem claim3_missing_key_raises_at_construction
    (mkClient : GPTClient) (g : OpenAIGlobals) (model_name : String) :
    (GPTAgent.init none mkClient g model_name).1
      = Except.error apiKeyErrorMsg := rfl

/-- C4: a call to the interactive variant writes the observation (plus the
newline `print` appends, then the input prompt) to standard output, reads
one line from standard input, and returns that line verbatim. -/
theorem claim4_human_verbatim
    (h : HumanAgent) (observation stdinLine : String) :
    (humanCall h observation stdinLine).2.1
        = [observation ++ "\n", humanPrompt] ∧
    (humanCall h observation stdinLine).2.2 = stdinLine := ⟨rfl, rfl⟩

/-- C5: on success the remote variant returns the single requested
candidate's text trimmed (the request asks for exactly one candidate,
`n = 1`), and the local variant returns the single generated sequence's
text trimmed, with the prompt excluded from the returned text (the request
sets `return_full_text = false`, so the pipeline's sequence holds the
continuation only). -/
theorem claim5_success_returns_trimmed_text
    (a : GPTAgent) (b : HFLocalAgent) (observation t : String) :
    (mkChatRequest a.model_name observation).n = 1 ∧
    (a.client (mkChatRequest a.model_name observation)
        = Except.ok { choices := [ { message := { content := some t } } ] } →
      (gptCall a observation).2 = t.trim) ∧
    (mkPipelineRequest observation).return_full_text = false ∧
    (b.pipeline (mkPipelineRequest observation)
        = Except.ok [ { generated_text := some t } ] →
      (hfCall b observation).2 = t.trim) := by
  refine ⟨rfl, ?_, rfl, ?_⟩
  · intro h
    unfold gptCall gptCallBody
    rw [h]
    rfl
  · intro h
    unfold hfCall hfCallBody
    rw [h]
    rfl

/-- Witness for C5 at a concrete successful client and pipeline whose text
carries leading/trailing whitespace. -/
theorem claim5_success_returns_trimmed_text_witness :
    (gptCall { model_name := "m", agent_identifier := "m",
               client := constClient " hi " } "obs").2 = " hi ".trim ∧
    (hfCall { model_name := "m", agent_identifier := "m", quantize := false,
              tokenizer := { handle := 0 }, model := { handle := 0 },
              pipeline := constPipeline " hi " } "obs").2 = " hi ".trim :=
  ⟨(claim5_success_returns_trimmed_text
      { model_name := "m", agent_identifier := "m",
        client := constClient " hi " }
      { model_name := "m", agent_identifier := "m", quantize := false,
        tokenizer := { handle := 0 }, model := { handle := 0 },
        pipeline := constPipeline " hi " } "obs" " hi ").2.1 rfl,
   (claim5_success_returns_trimmed_text
      { model_name := "m", agent_identifier := "m",
        client := constClient " hi " }
      { model_name := "m", agent_identifier := "m", quantize := false,
        tokenizer := { handle := 0 }, model := { handle := 0 },
        pipeline := constPipeline " hi " } "obs" " hi ").2.2.2 rfl⟩

/-- C6: invoking `__call__` on any variant leaves every attribute of the
instance unchanged: the instance threaded through the call comes out
equal to the one that went in. -/
theorem claim6_call_leaves_attributes_unchanged
    (h : HumanAgent) (a : GPTAgent) (b : HFLocalAgent)
    (observation stdinLine : String) :
    (humanCall h observation stdinLine).1 = h ∧
    (gptCall a observation).1 = a ∧
    (hfCall b observation).1 = b := ⟨rfl, rfl, rfl⟩

end BasicAgents

namespace BasicAgents

/-- C7 counterexample: `Agent.__init__` performs no check on the model
name, so constructing the interactive variant with the empty string
succeeds (`HumanAgent.init` is total) yet stores an empty model
identifier, refuting the claimed non-emptiness invariant. -/
theorem claim7_counterexample : (HumanAgent.init "").model_name = "" := rfl

/-- C7 amended: when the construction argument is non-empty, every
successfully constructed instance of every variant stores a non-empty
model identifier, and every call preserves the identifier (the instance
coming out of a call carries the same `model_name`). -/
theorem claim7_nonempty_identifier_amended (m : String) (hm : m ≠ "") :
    (HumanAgent.init m).model_name ≠ "" ∧
    (∀ (env : Option String) (mkClient : GPTClient) (g : OpenAIGlobals)
        (a : GPTAgent), (GPTAgent.init env mkClient g m).1 = Except.ok a →
      a.model_name ≠ "") ∧
    (∀ (lt : String → Except String HFTokenizer)
        (lm : String → Bool → Except String HFModel)
        (mp : HFModel → HFTokenizer → HFPipeline) (q : Bool)
        (b : HFLocalAgent),
      HFLocalAgent.init lt lm mp m q = Except.ok b → b.model_name ≠ "") ∧
    (∀ (h : HumanAgent) (obs l : String),
      ((humanCall h obs l).1).model_name = h.model_name) ∧
    (∀ (a : GPTAgent) (obs : String),
      ((gptCall a obs).1).model_name = a.model_name) ∧
    (∀ (b : HFLocalAgent) (obs : String),
      ((hfCall b obs).1).model_name = b.model_name) := by
  refine ⟨hm, ?_, ?_, fun h obs l => rfl, fun a obs => rfl, fun b obs => rfl⟩
  · intro env mkClient g a hok
    unfold GPTAgent.init at hok
    by_cases hkey : pyFalsyKey env
    · simp [hkey] at hok
    · simp [hkey] at hok
      rw [← hok]
      exact hm
  · intro lt lm mp q b hok
    unfold HFLocalAgent.init at hok
    cases htok : lt m with
    | error e => rw [htok] at hok; exact absurd hok (by simp [Bind.bind, Except.bind])
    | ok tok =>
      rw [htok] at hok
      cases q with
      | false =>
        cases hmod : lm m false with
        | error e =>
          rw [hmod] at hok
          exact absurd hok (by simp [Bind.bind, Except.bind])
        | ok mdl =>
          rw [hmod] at hok
          simp [Bind.bind, Except.bind, pure, Except.pure] at hok
          rw [← hok]
          exact hm
      | true =>
        cases hmod : lm m true with
        | error e =>
          rw [hmod] at hok
          exact absurd hok (by simp [Bind.bind, Except.bind])
        | ok mdl =>
          rw [hmod] at hok
          simp [Bind.bind, Except.bind, pure, Except.pure] at hok
          rw [← hok]
          exact hm

/-- Witness for C7 (amended) at the concrete name "gpt-4o", exercising the
remote-variant construction clause at a concrete environment, client and
prior module state. -/
theorem claim7_nonempty_identifier_amended_witness :
    ({ model_name := "gpt-4o", agent_identifier := "gpt-4o",
       client := constClient "x" } : GPTAgent).model_name ≠ "" :=
  (claim7_nonempty_identifier_amended "gpt-4o" (by decide)).2.1
    (some "k") (constClient "x") { api_key := none }
    { model_name := "gpt-4o", agent_identifier := "gpt-4o",
      client := constClient "x" } rfl

/-- C8 counterexample: constructing the remote variant writes the
module-global `openai.api_key` — shared mutable state read by every other
remote-variant construction — so with prior module state holding key "k1"
and environment supplying "k2", construction changes the shared state,
refuting "no construction reads or writes shared mutable state". -/
theorem claim8_counterexample :
    (GPTAgent.init (some "k2") (constClient "x")
        { api_key := some "k1" } "m").2 ≠ { api_key := some "k1" } := by
  intro hcontra
  have : some "k2" = some "k1" := congrArg OpenAIGlobals.api_key hcontra
  simp at this

/-- C8 amended: the one shared-state access is the remote variant's
constructor, which overwrites the module-global `openai.api_key` with the
environment value (and reads it back for the falsy check); the resulting
module state depends only on the environment, not on the prior state.
Every other construction and every call of every variant leaves the
shared module state unchanged, so calling one instance leaves the state
and observable behavior of every other instance unchanged. -/
theorem claim8_shared_state_amended
    (g : OpenAIGlobals) (env : Option String) (mkClient : GPTClient)
    (m obs l : String) (h : HumanAgent) (a : GPTAgent) (b : HFLocalAgent)
    (lt : String → Except String HFTokenizer)
    (lm : String → Bool → Except String HFModel)
    (mp : HFModel → HFTokenizer → HFPipeline) (q : Bool) :
    (GPTAgent.init env mkClient g m).2 = { api_key := env } ∧
    (humanInitG g m).1 = g ∧
    (hfInitG g lt lm mp m q).1 = g ∧
    (humanCallG g h obs l).1 = g ∧
    (gptCallG g a obs).1 = g ∧
    (hfCallG g b obs).1 = g := by
  refine ⟨?_, rfl, rfl, rfl, rfl, rfl⟩
  unfold GPTAgent.init
  by_cases hkey : pyFalsyKey env <;> simp [hkey]

/-- C9: the remote variant's constructor rejects any falsy credential —
both the unset environment variable (`None`) and the empty string — with
the same configuration `ValueError`. -/
theorem claim9_falsy_credential_rejected
    (env : Option String) (mkClient : GPTClient) (g : OpenAIGlobals)
    (m : String) (hfalsy : env = none ∨ env = some "") :
    (GPTAgent.init env mkClient g m).1 = Except.error apiKeyErrorMsg := by
  rcases hfalsy with hc | hc <;> subst hc <;> rfl

/-- Witness for C9 at the empty-string credential. -/
theorem claim9_falsy_credential_rejected_witness :
    (GPTAgent.init (some "") (constClient "x")
        { api_key := none } "m").1 = Except.error apiKeyErrorMsg :=
  claim9_falsy_credential_rejected (some "") (constClient "x")
    { api_key := none } "m" (Or.inr rfl)

/-- C10: for every variant, construction with model identifier `m` stores
`m` in both the `model_name` attribute and the `agent_identifier`
attribute (both set by `Agent.__init__`). -/
theorem claim10_identifier_stored_twice (m : String) :
    ((HumanAgent.init m).model_name = m ∧
      (HumanAgent.init m).agent_identifier = m) ∧
    (∀ (env : Option String) (mkClient : GPTClient) (g : OpenAIGlobals)
        (a : GPTAgent), (GPTAgent.init env mkClient g m).1 = Except.ok a →
      a.model_name = m ∧ a.agent_identifier = m) ∧
    (∀ (lt : String → Except String HFTokenizer)
        (lm : String → Bool → Except String HFModel)
        (mp : HFModel → HFTokenizer → HFPipeline) (q : Bool)
        (b : HFLocalAgent), HFLocalAgent.init lt lm mp m q = Except.ok b →
      b.model_name = m ∧ b.agent_identifier = m) := by
  refine ⟨⟨rfl, rfl⟩, ?_, ?_⟩
  · intro env mkClient g a hok
    unfold GPTAgent.init at hok
    by_cases hkey : pyFalsyKey env
    · simp [hkey] at hok
    · simp [hkey] at hok
      rw [← hok]
      exact ⟨rfl, rfl⟩
  · intro lt lm mp q b hok
    unfold HFLocalAgent.init at hok
    cases htok : lt m with
    | error e => rw [htok] at hok; exact absurd hok (by simp [Bind.bind, Except.bind])
    | ok tok =>
      rw [htok] at hok
      cases q with
      | false =>
        cases hmod : lm m false with
        | error e =>
          rw [hmod] at hok
          exact absurd hok (by simp [Bind.bind, Except.bind])
        | ok mdl =>
          rw [hmod] at hok
          simp [Bind.bind, Except.bind, pure, Except.pure] at hok
          rw [← hok]
          exact ⟨rfl, rfl⟩
      | true =>
        cases hmod : lm m true with
        | error e =>
          rw [hmod] at hok
          exact absurd hok (by simp [Bind.bind, Except.bind])
        | ok mdl =>
          rw [hmod] at hok
          simp [Bind.bind, Except.bind, pure, Except.pure] at hok
          rw [← hok]
          exact ⟨rfl, rfl⟩

/-- Witness for C10, exercising the remote and local construction clauses
at concrete inputs. -/
theorem claim10_identifier_stored_twice_witness :
    (({ model_name := "m", agent_identifier := "m",
        client := constClient "x" } : GPTAgent).model_name = "m" ∧
      ({ model_name := "m", agent_identifier := "m",
         client := constClient "x" } : GPTAgent).agent_identifier = "m") ∧
    (({ model_name := "m", agent_identifier := "m", quantize := false,
        tokenizer := { handle := 0 }, model := { handle := 0 },
        pipeline := okMkPipeline "t" { handle := 0 } { handle := 0 } }
          : HFLocalAgent).model_name = "m" ∧
      ({ model_name := "m", agent_identifier := "m", quantize := false,
         tokenizer := { handle := 0 }, model := { handle := 0 },
         pipeline := okMkPipeline "t" { handle := 0 } { handle := 0 } }
          : HFLocalAgent).agent_identifier = "m") :=
  ⟨(claim10_identifier_stored_twice "m").2.1 (some "k") (constClient "x")
      { api_key := none }
      { model_name := "m", agent_identifier := "m",
        client := constClient "x" } rfl,
   (claim10_identifier_stored_twice "m").2.2 okLoadTokenizer okLoadModel
      (okMkPipeline "t") false
      { model_name := "m", agent_identifier := "m", quantize := false,
        tokenizer := { handle := 0 }, model := { handle := 0 },
        pipeline := okMkPipeline "t" { handle := 0 } { handle := 0 } } rfl⟩

end BasicAgents
